import Mathlib

/-!
Verification development for the NetworkClient repository (`src/Network.cpp`,
the WinHTTP-based variant, together with its header).  The C++ code is shallowly
embedded: strings are `List Char`, the process-wide state (`hSession`,
`rateLimitMap`) is passed explicitly, the WinHTTP transport collaborator is a
parameter, and the monotonic clock is an explicit `now : Nat` (milliseconds).
`std::stoi` may throw, so URL parsing and the request path return `Except`.
-/

namespace NetworkClient

/-- Exceptions that `std::stoi` can throw (`Network::ParseUrl` calls it
without a handler, so they propagate out of `Network::Request`). -/
inductive CppExc where
  | invalidArgument
  | outOfRange
deriving DecidableEq, Repr

/-- Model of C `isspace` in the default locale, as used by `std::stoi`
when skipping leading whitespace. -/
def isSpaceChar (c : Char) : Bool :=
  c = ' ' || c = '\t' || c = '\n' || c = '\r' || c = '\x0b' || c = '\x0c'

/-- Numeric value of a run of decimal digits. -/
def digitsToNat (ds : List Char) : Nat :=
  ds.foldl (fun a c => a * 10 + (c.toNat - 48)) 0

/-- Model of `std::stoi`: skip leading whitespace, read an optional sign and a
run of decimal digits; throw `invalid_argument` when no digits are present and
`out_of_range` when the value does not fit in a 32-bit `int`. -/
def stoi (cs : List Char) : Except CppExc Int :=
  let cs1 := cs.dropWhile isSpaceChar
  let signAndRest : Int × List Char :=
    match cs1 with
    | '-' :: r => (-1, r)
    | '+' :: r => (1, r)
    | r => (1, r)
  let ds := signAndRest.2.takeWhile (fun c => c.isDigit)
  if ds.isEmpty then .error .invalidArgument
  else
    let v : Int := signAndRest.1 * (digitsToNat ds : Int)
    if v < -(2 ^ 31) || 2 ^ 31 - 1 < v then .error .outOfRange
    else .ok v

/-- `std::string::find(pat)`: index of the first occurrence of `pat` in `s`
(`none` models `npos`). -/
def findSub (pat : List Char) : List Char → Option Nat
  | [] => if pat.isEmpty then some 0 else none
  | c :: rest =>
      if pat.isPrefixOf (c :: rest) then some 0
      else (findSub pat rest).map (· + 1)

/-- Index of the first occurrence of `ch` in a character list
(`std::string::find(ch)`; `none` models `npos`). -/
def findCharIdx (ch : Char) : List Char → Option Nat
  | [] => none
  | c :: rest => if c = ch then some 0 else (findCharIdx ch rest).map (· + 1)

/-- `std::string::find(ch, start)`: index of the first occurrence of `ch` in
`s` at position `start` or later. -/
def findCharFrom (s : List Char) (ch : Char) (start : Nat) : Option Nat :=
  (findCharIdx ch (s.drop start)).map (· + start)

/-- Result of `Network::ParseUrl`mirroring its four out-parameters. -/
structure ParsedUrl where
  protocol : List Char
  host : List Char
  path : List Char
  port : Int
deriving DecidableEq, Repr

/-- The scheme/host/path split performed by the first half of
`Network::ParseUrl` (before the port is stripped from the host):
`none` when the URL has no `"://"` separator. -/
def splitSchemeHostPath (url : List Char) : Option (List Char × List Char × List Char) :=
  match findSub "://".data url with
  | none => none
  | some protocolEnd =>
      let protocol := url.take protocolEnd
      let hostStart := protocolEnd + 3
      match findCharFrom url '/' hostStart with
      | none => some (protocol, url.drop hostStart, ['/'])
      | some pathStart =>
          some (protocol, (url.drop hostStart).take (pathStart - hostStart), url.drop pathStart)

/-- `Network::ParseUrl` (src/Network.cpp lines 546-581).  Returns
`.ok none` when the function returns `false` (no `"://"`), `.ok (some _)` on
success, and `.error _` when the unguarded `std::stoi` call on the text after
the first `':'` of the host throws. -/
def ParseUrl (url : List Char) : Except CppExc (Option ParsedUrl) :=
  match splitSchemeHostPath url with
  | none => .ok none
  | some (protocol, host0, path) =>
      let defaultPort : Int := if protocol = "https".data then 443 else 80
      match findCharIdx ':' host0 with
      | none => .ok (some ⟨protocol, host0, path, defaultPort⟩)
      | some portSep =>
          match stoi (host0.drop (portSep + 1)) with
          | .error e => .error e
          | .ok p => .ok (some ⟨protocol, host0.take portSep, path, p⟩)

/-- Per-host bookkeeping of the rate limiter (`Network::RateLimitInfo`):
request count inside the current window and the window-start timestamp in
milliseconds (`std::map::operator[]` value-initializes both to zero). -/
structure RateLimitInfo where
  requestCount : Nat
  lastRequest : Nat
deriving DecidableEq, Repr

/-- The process-wide mutable state of the `Network` class: the WinHTTP session
handle `hSession` (modelled as "open or not") and the static
`rateLimitMap` (`std::map` with default-inserting lookup, modelled as a total
function from host to entry with the zero entry as default). -/
structure NetState where
  hSession : Bool
  rateLimitMap : List Char → RateLimitInfo

/-- The state at process start: no session, empty rate-limit table. -/
def initialState : NetState :=
  { hSession := false, rateLimitMap := fun _ => ⟨0, 0⟩ }

/-- `Network::Initialize` (src/Network.cpp lines 48-83): idempotent; opens the
WinHTTP session.  The outcome of `WinHttpOpen` is the parameter `openOk`.
Returns the C++ return value and the new state. -/
def Initialize (openOk : Bool) (st : NetState) : Bool × NetState :=
  if st.hSession then (true, st)
  else if openOk then (true, { st with hSession := true })
  else (false, st)

/-- `Network::Cleanup` (src/Network.cpp lines 90-97): closes the session handle
and sets it to `NULL`; nothing else is touched. -/
def Cleanup (st : NetState) : NetState :=
  { st with hSession := false }

/-- `Network::ApplyRateLimit` (src/Network.cpp lines 108-144), with the clock
reading `now` passed explicitly.  Returns the admission verdict and the
updated state. -/
def ApplyRateLimit (st : NetState) (now : Nat) (host : List Char) (rateLimit : Int) :
    Bool × NetState :=
  if rateLimit ≤ 0 then (true, st)
  else
    let info := st.rateLimitMap host
    if info.requestCount = 0 then
      (true, { st with rateLimitMap := fun h =>
        if h = host then ⟨1, now⟩ else st.rateLimitMap h })
    else
      let elapsed := now - info.lastRequest
      if 60000 ≤ elapsed then
        (true, { st with rateLimitMap := fun h =>
          if h = host then ⟨1, now⟩ else st.rateLimitMap h })
      else if rateLimit ≤ (info.requestCount : Int) then
        (false, st)
      else
        (true, { st with rateLimitMap := fun h =>
          if h = host then ⟨info.requestCount + 1, info.lastRequest⟩
          else st.rateLimitMap h })

/-- `Network::Method` from the header. -/
inductive Method where
  | HTTP_GET
  | HTTP_POST
  | HTTP_PUT
  | HTTP_PATCH
  | HTTP_DELETE
deriving DecidableEq, Repr

/-- `Network::RequestConfig`.  The full declaration of this struct (the one
with retry, rate-limit and authentication fields read by `Network.cpp` and the
test programs) is not among the source files; only a reduced variant of
`Network.hpp` is.  The fields and their defaults are modelled from the spec
(§3 Configuration) and from how `src/Network.cpp` and the bundled tests use
them. -/
structure RequestConfig where
  timeout_seconds : Int := 30
  verify_ssl : Bool := true
  use_tls12_or_higher : Bool := true
  use_http2 : Bool := false
  follow_redirects : Bool := true
  max_redirects : Int := 5
  max_retries : Nat := 3
  retry_delay_ms : Nat := 0
  api_key : List Char := []
  oauth_token : List Char := []
  rate_limit_per_minute : Int := 0
  async_request : Bool := false
  additional_headers : List (List Char × List Char) := []

/-- `Network::NetworkResponse` from the header. -/
structure NetworkResponse where
  status_code : Int := 0
  body : List Char := []
  headers : List (List Char × List Char) := []
  success : Bool := false
  error_message : List Char := []
deriving DecidableEq, Repr

/-- Outcome of one send/receive round of the WinHTTP transport collaborator:
either `WinHttpSendRequest`/`WinHttpReceiveResponse` fails with a
`GetLastError` code, or a response (status, parsed headers, body) arrives. -/
inductive TransportOutcome where
  | sendError (code : Nat)
  | response (status : Nat) (headers : List (List Char × List Char)) (body : List Char)
deriving DecidableEq, Repr

/-- The transport collaborator: whether `WinHttpConnect` and
`WinHttpOpenRequest` succeed, and the outcome of the n-th send attempt. -/
structure Transport where
  connectOk : Bool := true
  openOk : Bool := true
  outcome : Nat → TransportOutcome

/-- The error message `Network::Request` writes for a failed
send/receive, keyed by the `GetLastError` code (src/Network.cpp lines 284-303). -/
def sendErrorMsg (code : Nat) : List Char :=
  if code = 12002 then "Request timed out".data
  else if code = 12007 then "DNS name resolution failed".data
  else if code = 12029 then "Failed to connect to server".data
  else if code = 12030 then "Connection was terminated".data
  else ("Request failed with error code: ".data ++ (toString code).data)

/-- The rate-limit rejection message (src/Network.cpp line 179). -/
def rateLimitMsg (host : List Char) : List Char :=
  "Rate limit exceeded for host: ".data ++ host ++ ". Please wait before retrying.".data

/-- The phase timeouts `Network::Request` passes to `WinHttpSetTimeouts`
(src/Network.cpp lines 238-245), translated literally from the two ternary
expressions: (resolve, connect, send, receive). -/
def phaseTimeoutsOf (timeout : Int) : Int × Int × Int × Int :=
  ((if 15000 < timeout / 4 then 15000 else timeout / 4),
   (if 30000 < timeout / 2 then 30000 else timeout / 2),
   timeout, timeout)

/-- Everything one call of `Network::Request` produces: the returned
`NetworkResponse`, the state left behind, and an observation trace — how many
transport attempts were dispatched, the headers handed to
`WinHttpAddRequestHeaders`, the timeouts set on the request handle (when
`timeout_seconds > 0` and the attempt was reached), and the inter-attempt
sleeps performed. -/
structure RequestResult where
  response : NetworkResponse
  state : NetState
  attempts : Nat
  sentHeaders : List (List Char × List Char)
  phaseTimeouts : Option (Int × Int × Int × Int)
  delays : List Nat

/-- The attempt phase of `Network::Request` (src/Network.cpp lines 237-397),
reached after rate limiting admitted the call and `WinHttpConnect` /
`WinHttpOpenRequest` succeeded: set the timeout cascade, add the configured
headers, perform exactly one send/receive round, and classify the status
code.  `st1` is the process state as left by the admission check. -/
def AttemptPhase (config : RequestConfig) (st1 : NetState) (tr : Transport) :
    RequestResult :=
  let timeouts :=
    if 0 < config.timeout_seconds then
      some (phaseTimeoutsOf (config.timeout_seconds * 1000))
    else none
  let sent := config.additional_headers
  match tr.outcome 0 with
  | .sendError code =>
      { response := { success := false, status_code := 0,
                      error_message := sendErrorMsg code },
        state := st1, attempts := 1, sentHeaders := sent,
        phaseTimeouts := timeouts, delays := [] }
  | .response status hdrs body =>
      { response := { status_code := (status : Int), body := body,
                      headers := hdrs,
                      success := decide (200 ≤ status ∧ status < 300),
                      error_message := [] },
        state := st1, attempts := 1, sentHeaders := sent,
        phaseTimeouts := timeouts, delays := [] }

/-- The part of `Network::Request` (src/Network.cpp lines 176-398) that runs
after the URL parsed successfully: rate limiting, `WinHttpConnect`,
`WinHttpOpenRequest`, then the attempt phase.  There is no retry loop in
the source. -/
def RequestAfterParse (u : ParsedUrl) (config : RequestConfig) (st : NetState)
    (now : Nat) (tr : Transport) : RequestResult :=
  let step :=
    if 0 < config.rate_limit_per_minute then
      ApplyRateLimit st now u.host config.rate_limit_per_minute
    else (true, st)
  if step.1 = false then
    { response := { success := false, error_message := rateLimitMsg u.host,
                    status_code := 429 },
      state := step.2, attempts := 0, sentHeaders := [], phaseTimeouts := none,
      delays := [] }
  else if tr.connectOk = false then
    { response := { error_message := "Failed to connect".data },
      state := step.2, attempts := 0, sentHeaders := [], phaseTimeouts := none,
      delays := [] }
  else if tr.openOk = false then
    { response := { error_message := "Failed to create request".data },
      state := step.2, attempts := 0, sentHeaders := [], phaseTimeouts := none,
      delays := [] }
  else
    AttemptPhase config step.2 tr

/-- `Network::Request` (src/Network.cpp lines 158-398), with the clock reading
`now` and the transport collaborator `tr` passed explicitly.  The control flow
mirrors the source: parse the URL (an exception from the `std::stoi` inside
`ParseUrl` propagates — there is no handler), fail with "Invalid URL" when
parsing returns `false`, otherwise continue with `RequestAfterParse`. -/
def Request (method : Method) (url : List Char) (payload : Option (List Char))
    (config : RequestConfig) (st : NetState) (now : Nat) (tr : Transport) :
    Except CppExc RequestResult :=
  match ParseUrl url with
  | .error e => .error e
  | .ok none =>
      .ok { response := { success := false, error_message := "Invalid URL".data },
            state := st, attempts := 0, sentHeaders := [], phaseTimeouts := none,
            delays := [] }
  | .ok (some u) => .ok (RequestAfterParse u config st now tr)

/-- `Network::RequestAsync` (src/Network.cpp lines 412-422): the spawned
thread copies the configuration, clears `async_request`, runs `Request` and
hands the response to the callback.  The returned list is the sequence of
callback invocations performed by that thread body. -/
def RequestAsync {γ : Type} (method : Method) (url : List Char)
    (callback : NetworkResponse → γ) (payload : Option (List Char))
    (config : RequestConfig) (st : NetState) (now : Nat) (tr : Transport) :
    Except CppExc (List γ × NetState) :=
  match Request method url payload { config with async_request := false } st now tr with
  | .error e => .error e
  | .ok r => .ok ([callback r.response], r.state)

/-- Running `Network::Request` once per clock reading in `ts`, threading the
process state. -/
def RequestSeq (method : Method) (url : List Char) (payload : Option (List Char))
    (config : RequestConfig) (tr : Transport) :
    List Nat → NetState → Except CppExc (NetState × List RequestResult)
  | [], st => .ok (st, [])
  | t :: ts, st =>
      match Request method url payload config st t tr with
      | .error e => .error e
      | .ok r =>
          match RequestSeq method url payload config tr ts r.state with
          | .error e => .error e
          | .ok (st2, rs) => .ok (st2, r :: rs)

/-! ### Concrete fixtures used by closed theorems -/

/-- The scheme separator `"://"`. -/
def urlSep : List Char := "://".data

/-- A transport where everything succeeds with status 200. -/
def okTransport : Transport :=
  { outcome := fun _ => .response 200 [] "ok".data }

/-- A transport answering 500 on the first attempt and 200 from the second
attempt on (the retry scenario of spec §8 with k = 1). -/
def retryProbeTransport : Transport :=
  { outcome := fun n => if n < 1 then .response 500 [] [] else .response 200 [] "ok".data }

/-! ### Helper lemmas about substring search -/

lemma isPrefixOf_exists : ∀ (p s : List Char), p.isPrefixOf s = true → ∃ t, s = p ++ t
  | [], s, _ => ⟨s, rfl⟩
  | a :: p, [], h => by simp [List.isPrefixOf] at h
  | a :: p, b :: s, h => by
      simp only [List.isPrefixOf, Bool.and_eq_true, beq_iff_eq] at h
      obtain ⟨t, ht⟩ := isPrefixOf_exists p s h.2
      exact ⟨t, by simp [h.1, ht]⟩

lemma findSub_eq_some (pat : List Char) :
    ∀ (s : List Char) (i : Nat), findSub pat s = some i →
      ∃ pre post, s = pre ++ (pat ++ post)
  | [], i, h => by
      unfold findSub at h
      split at h
      · next hemp =>
          refine ⟨[], [], ?_⟩
          simp [List.isEmpty_iff.mp hemp]
      · cases h
  | c :: rest, i, h => by
      unfold findSub at h
      split at h
      · next hpre =>
          obtain ⟨t, ht⟩ := isPrefixOf_exists pat (c :: rest) hpre
          exact ⟨[], t, by simp [ht]⟩
      · next hpre =>
          cases hsub : findSub pat rest with
          | none => rw [hsub] at h; cases h
          | some j =>
              obtain ⟨pre, post, hdec⟩ := findSub_eq_some pat rest j hsub
              exact ⟨c :: pre, post, by simp [hdec]⟩

lemma isPrefixOf_append_self : ∀ (p t : List Char), p.isPrefixOf (p ++ t) = true
  | [], t => by simp [List.isPrefixOf]
  | a :: p, t => by
      have ih := isPrefixOf_append_self p t
      simp [List.isPrefixOf, ih]

lemma findSub_cons_append (c : Char) (cs pre post : List Char) :
    (findSub (c :: cs) (pre ++ ((c :: cs) ++ post))).isSome = true := by
  induction pre with
  | nil =>
      simp only [List.nil_append, List.cons_append]
      unfold findSub
      rw [if_pos]
      · rfl
      · exact isPrefixOf_append_self (c :: cs) post
  | cons d pre ih =>
      simp only [List.cons_append]
      unfold findSub
      split
      · rfl
      · simpa using ih

/-! ### Helper lemmas about the attempt phase -/

lemma attemptPhase_attempts (config : RequestConfig) (st1 : NetState) (tr : Transport) :
    (AttemptPhase config st1 tr).attempts = 1 := by
  unfold AttemptPhase
  cases h : tr.outcome 0 <;> simp

lemma attemptPhase_state (config : RequestConfig) (st1 : NetState) (tr : Transport) :
    (AttemptPhase config st1 tr).state = st1 := by
  unfold AttemptPhase
  cases h : tr.outcome 0 <;> simp

lemma attemptPhase_sentHeaders (config : RequestConfig) (st1 : NetState) (tr : Transport) :
    (AttemptPhase config st1 tr).sentHeaders = config.additional_headers := by
  unfold AttemptPhase
  cases h : tr.outcome 0 <;> simp

lemma attemptPhase_phaseTimeouts (config : RequestConfig) (st1 : NetState) (tr : Transport) :
    (AttemptPhase config st1 tr).phaseTimeouts =
      (if 0 < config.timeout_seconds then
        some (phaseTimeoutsOf (config.timeout_seconds * 1000)) else none) := by
  unfold AttemptPhase
  cases h : tr.outcome 0 <;> simp

lemma attemptPhase_response (config : RequestConfig) (st1 : NetState) (tr : Transport)
    (s : Nat) (hdrs : List (List Char × List Char)) (body : List Char)
    (h : tr.outcome 0 = .response s hdrs body) :
    (AttemptPhase config st1 tr).response =
      { status_code := (s : Int), body := body, headers := hdrs,
        success := decide (200 ≤ s ∧ s < 300), error_message := [] } := by
  unfold AttemptPhase
  rw [h]

/-- When the early-exit branches of `RequestAfterParse` are all skipped, the
attempt phase runs on the state left by the admission check. -/
lemma afterParse_of_admitted (u : ParsedUrl) (config : RequestConfig)
    (st : NetState) (now : Nat) (tr : Transport)
    (hconn : tr.connectOk = true) (hopen : tr.openOk = true)
    (hadm : (if 0 < config.rate_limit_per_minute then
        ApplyRateLimit st now u.host config.rate_limit_per_minute
      else (true, st)).1 = true) :
    RequestAfterParse u config st now tr =
      AttemptPhase config
        (if 0 < config.rate_limit_per_minute then
          ApplyRateLimit st now u.host config.rate_limit_per_minute
        else (true, st)).2 tr := by
  simp only [RequestAfterParse]
  rw [if_neg (by simp [hadm]), if_neg (by simp [hconn]), if_neg (by simp [hopen])]

/-- Only the attempt phase of `RequestAfterParse` reports a transport
attempt; every early-exit branch reports zero. -/
lemma afterParse_attempt_eq (u : ParsedUrl) (config : RequestConfig)
    (st : NetState) (now : Nat) (tr : Transport)
    (h : (RequestAfterParse u config st now tr).attempts = 1) :
    RequestAfterParse u config st now tr =
      AttemptPhase config
        (if 0 < config.rate_limit_per_minute then
          ApplyRateLimit st now u.host config.rate_limit_per_minute
        else (true, st)).2 tr := by
  simp only [RequestAfterParse] at h ⊢
  split_ifs at h ⊢ <;> rfl

lemma ite_lt_eq_min (a x : Int) : (if a < x then a else x) = min a x := by
  rw [min_def]
  split_ifs <;> omega

lemma phaseTimeoutsOf_eq_min (t : Int) :
    phaseTimeoutsOf t = (min 15000 (t / 4), min 30000 (t / 2), t, t) := by
  unfold phaseTimeoutsOf
  rw [ite_lt_eq_min, ite_lt_eq_min]

/-! ### Claim theorems -/

/-- C10: `Cleanup` tears down only the transport session handle; for every
host, the recorded request count and window timestamp in the rate-limit table
are identical before and after a `Cleanup()`/`Initialize()` cycle, so consumed
rate-limit budgets keep applying afterwards. -/
theorem cleanup_initialize_preserves_rate_limit_table
    (st : NetState) (openOk : Bool) (host : List Char) :
    (Cleanup st).hSession = false ∧
    (Cleanup st).rateLimitMap host = st.rateLimitMap host ∧
    ((Initialize openOk (Cleanup st)).2).rateLimitMap host = st.rateLimitMap host := by
  refine ⟨rfl, rfl, ?_⟩
  unfold Initialize Cleanup
  split_ifs <;> rfl

/-- C3 (refuted — evidence of the code bug): `ParseUrl` feeds the text after
the host's `':'` to `std::stoi` with no handler, so for a URL with a
non-numeric port suffix `Network::Request` propagates `std::invalid_argument`
instead of returning a `NetworkResponse`. -/
theorem request_throws_std_invalid_argument_on_nonnumeric_port :
    Request .HTTP_GET "http://example.com:abc/".data none {} initialState 0 okTransport
      = .error .invalidArgument := by rfl

/-- C1 (refuted — evidence of the code bug): with `max_retries = 3` and
`retry_delay_ms = 1000` and a transport answering 500 on the first attempt and
200 from the second on (k = 1 < max_retries), `Network::Request` performs
exactly one transport attempt, sleeps no inter-attempt delay, and returns the
500 with `success = false`: the retry loop documented by the README and
exercised by the bundled test programs does not exist in the implementation. -/
theorem request_does_not_retry_on_500 :
    (Request .HTTP_GET "http://example.com/".data none
        { max_retries := 3, retry_delay_ms := 1000 } initialState 0
        retryProbeTransport).toOption.map
      (fun r => (r.response.status_code, r.response.success, r.attempts, r.delays))
      = some (500, false, 1, []) := by rfl

/-- C8: for every input string that does not contain the substring `"://"`,
`ParseUrl` fails and `Request` returns `success = false`,
`error_message = "Invalid URL"` and `status_code = 0` (the record's default),
leaving the state untouched and performing no transport attempt. -/
theorem request_no_separator_invalid_url
    (method : Method) (url : List Char) (payload : Option (List Char))
    (config : RequestConfig) (st : NetState) (now : Nat) (tr : Transport)
    (h : ∀ pre post, url ≠ pre ++ (urlSep ++ post)) :
    Request method url payload config st now tr
      = .ok { response := { success := false, error_message := "Invalid URL".data },
              state := st, attempts := 0, sentHeaders := [], phaseTimeouts := none,
              delays := [] } := by
  have hf : findSub urlSep url = none := by
    cases hc : findSub urlSep url with
    | none => rfl
    | some i =>
        obtain ⟨pre, post, hdec⟩ := findSub_eq_some urlSep url i hc
        exact absurd hdec (h pre post)
  unfold Request ParseUrl splitSchemeHostPath
  rw [show "://".data = urlSep from rfl, hf]

/-- Witness for C8 at the concrete input `"not_a_valid_url"` (the invalid URL
used by the repository's own test program). -/
theorem request_no_separator_invalid_url_witness :
    (∀ pre post, "not_a_valid_url".data ≠ pre ++ (urlSep ++ post)) ∧
    Request .HTTP_GET "not_a_valid_url".data none {} initialState 0 okTransport
      = .ok { response := { success := false, error_message := "Invalid URL".data },
              state := initialState, attempts := 0, sentHeaders := [],
              phaseTimeouts := none, delays := [] } := by
  have hno : ∀ pre post, "not_a_valid_url".data ≠ pre ++ (urlSep ++ post) := by
    intro pre post heq
    have h1 := findSub_cons_append ':' "//".data pre post
    rw [show (':' :: "//".data) = urlSep from rfl, ← heq] at h1
    have h2 : findSub urlSep "not_a_valid_url".data = none := by rfl
    rw [h2] at h1
    cases h1
  exact ⟨hno, request_no_separator_invalid_url _ _ _ _ _ _ _ hno⟩

/-- Looking a header up by name in a header list. -/
def findHeader (hs : List (List Char × List Char)) (k : List Char) : Option (List Char) :=
  (hs.find? (fun p => p.1 == k)).map (fun p => p.2)

/-- A transport answering 404 on every attempt. -/
def notFoundTransport : Transport :=
  { outcome := fun _ => .response 404 [] [] }

/-- C4: whenever `timeout_seconds > 0` and the attempt phase is reached, the
timeouts handed to `WinHttpSetTimeouts` are
resolve = min(15000, budget/4), connect = min(30000, budget/2), and
send = receive = budget, with budget = timeout_seconds * 1000 ms. -/
theorem request_timeout_cascade
    (method : Method) (url : List Char) (payload : Option (List Char))
    (config : RequestConfig) (st : NetState) (now : Nat) (tr : Transport)
    (r : RequestResult)
    (htime : 0 < config.timeout_seconds)
    (hreq : Request method url payload config st now tr = .ok r)
    (hatt : r.attempts = 1) :
    r.phaseTimeouts = some (min 15000 (config.timeout_seconds * 1000 / 4),
                            min 30000 (config.timeout_seconds * 1000 / 2),
                            config.timeout_seconds * 1000,
                            config.timeout_seconds * 1000) := by
  unfold Request at hreq
  cases hp : ParseUrl url with
  | error e => rw [hp] at hreq; cases hreq
  | ok o =>
      rw [hp] at hreq
      cases o with
      | none =>
          simp only [Except.ok.injEq] at hreq
          rw [← hreq] at hatt
          cases hatt
      | some u =>
          simp only [Except.ok.injEq] at hreq
          subst hreq
          rw [afterParse_attempt_eq u config st now tr hatt,
              attemptPhase_phaseTimeouts, if_pos htime, phaseTimeoutsOf_eq_min]

/-- The configuration and result used by C4's witness. -/
def cfg100 : RequestConfig := { timeout_seconds := 100 }

/-- The result of C4's witness request. -/
def r100 : RequestResult :=
  RequestAfterParse ⟨"http".data, "example.com".data, "/".data, 80⟩ cfg100
    initialState 0 okTransport

/-- Witness for C4 at `timeout_seconds = 100`: budget 100000 ms, resolve
capped at 15000, connect capped at 30000. -/
theorem request_timeout_cascade_witness :
    (0 < cfg100.timeout_seconds) ∧
    Request .HTTP_GET "http://example.com/".data none cfg100 initialState 0
      okTransport = .ok r100 ∧
    r100.attempts = 1 ∧
    r100.phaseTimeouts = some (min 15000 (cfg100.timeout_seconds * 1000 / 4),
                               min 30000 (cfg100.timeout_seconds * 1000 / 2),
                               cfg100.timeout_seconds * 1000,
                               cfg100.timeout_seconds * 1000) ∧
    r100.phaseTimeouts = some (15000, 30000, 100000, 100000) := by
  refine ⟨by decide, rfl, rfl, ?_, rfl⟩
  exact request_timeout_cascade .HTTP_GET "http://example.com/".data none cfg100
    initialState 0 okTransport r100 (by decide) rfl rfl

/-- C5 (counterexample): with both `api_key` and `oauth_token` set and no
configured `additional_headers`, the dispatched request carries no
`Authorization` header at all — in particular not `Bearer <oauth_token>`. -/
theorem request_auth_header_not_injected
    : (Request .HTTP_GET "http://example.com/".data none
        { api_key := "k".data, oauth_token := "t".data } initialState 0
        okTransport).toOption.map (fun r => findHeader r.sentHeaders "Authorization".data)
      = some none ∧
      some (none : Option (List Char)) ≠ some (some ("Bearer t".data)) := by
  exact ⟨rfl, by decide⟩

/-- C5 (amended): `Network::Request` dispatches exactly the headers in
`config.additional_headers`; the `api_key` and `oauth_token` fields are never
injected into the dispatched headers. -/
theorem request_sends_exactly_additional_headers
    (method : Method) (url : List Char) (payload : Option (List Char))
    (config : RequestConfig) (st : NetState) (now : Nat) (tr : Transport)
    (r : RequestResult)
    (hreq : Request method url payload config st now tr = .ok r)
    (hatt : r.attempts = 1) :
    r.sentHeaders = config.additional_headers := by
  unfold Request at hreq
  cases hp : ParseUrl url with
  | error e => rw [hp] at hreq; cases hreq
  | ok o =>
      rw [hp] at hreq
      cases o with
      | none =>
          simp only [Except.ok.injEq] at hreq
          rw [← hreq] at hatt
          cases hatt
      | some u =>
          simp only [Except.ok.injEq] at hreq
          subst hreq
          rw [afterParse_attempt_eq u config st now tr hatt, attemptPhase_sentHeaders]

/-- The configuration used by C5's witness: both credentials set plus one
explicitly configured header. -/
def cfgAuth : RequestConfig :=
  { api_key := "k".data, oauth_token := "t".data,
    additional_headers := [("Accept".data, "application/json".data)] }

/-- The result of C5's witness request. -/
def rAuth : RequestResult :=
  RequestAfterParse ⟨"http".data, "example.com".data, "/".data, 80⟩ cfgAuth
    initialState 0 okTransport

/-- Witness for C5's amended theorem: both credentials set, one configured
header; exactly that header is dispatched. -/
theorem request_sends_exactly_additional_headers_witness :
    Request .HTTP_GET "http://example.com/".data none cfgAuth initialState 0
      okTransport = .ok rAuth ∧
    rAuth.attempts = 1 ∧
    rAuth.sentHeaders = cfgAuth.additional_headers ∧
    rAuth.sentHeaders = [("Accept".data, "application/json".data)] := by
  refine ⟨rfl, rfl, ?_, rfl⟩
  exact request_sends_exactly_additional_headers .HTTP_GET
    "http://example.com/".data none cfgAuth initialState 0 okTransport rAuth rfl rfl

/-- C6 (counterexample): a completed transport response with status 404 yields
`success = false` but an empty `error_message` — the code never writes
"Client error (status N)". -/
theorem request_no_4xx_error_message
    : (Request .HTTP_GET "http://example.com/".data none {} initialState 0
        notFoundTransport).toOption.map
        (fun r => (r.response.status_code, r.response.success, r.response.error_message))
      = some (404, false, []) ∧
      ([] : List Char) ≠ "Client error (status 404)".data := by
  exact ⟨rfl, by decide⟩

/-- C6 (amended): for every completed transport response the returned
`NetworkResponse` has `success = (200 ≤ status < 300)`, carries that status
code, and leaves `error_message` empty regardless of the status class. -/
theorem request_success_classification
    (method : Method) (url : List Char) (payload : Option (List Char))
    (config : RequestConfig) (st : NetState) (now : Nat) (tr : Transport)
    (r : RequestResult) (s : Nat) (hdrs : List (List Char × List Char))
    (body : List Char)
    (hreq : Request method url payload config st now tr = .ok r)
    (hatt : r.attempts = 1)
    (hout : tr.outcome 0 = .response s hdrs body) :
    r.response.status_code = (s : Int) ∧
    (r.response.success = true ↔ (200 ≤ s ∧ s < 300)) ∧
    r.response.error_message = [] := by
  unfold Request at hreq
  cases hp : ParseUrl url with
  | error e => rw [hp] at hreq; cases hreq
  | ok o =>
      rw [hp] at hreq
      cases o with
      | none =>
          simp only [Except.ok.injEq] at hreq
          rw [← hreq] at hatt
          cases hatt
      | some u =>
          simp only [Except.ok.injEq] at hreq
          subst hreq
          rw [afterParse_attempt_eq u config st now tr hatt,
              attemptPhase_response config _ tr s hdrs body hout]
          refine ⟨rfl, ?_, rfl⟩
          simp

/-- The transport used by C6's witness: every attempt answers 204. -/
def tr204 : Transport := { outcome := fun _ => .response 204 [] [] }

/-- The result of C6's witness request. -/
def r204 : RequestResult :=
  RequestAfterParse ⟨"http".data, "example.com".data, "/".data, 80⟩ {}
    initialState 0 tr204

/-- Witness for C6's amended theorem at status 204 (a 2xx success). -/
theorem request_success_classification_witness :
    Request .HTTP_GET "http://example.com/".data none {} initialState 0 tr204
      = .ok r204 ∧
    r204.attempts = 1 ∧
    tr204.outcome 0 = .response 204 [] [] ∧
    (r204.response.status_code = ((204 : Nat) : Int) ∧
      (r204.response.success = true ↔ (200 ≤ 204 ∧ 204 < 300)) ∧
      r204.response.error_message = []) := by
  refine ⟨rfl, rfl, rfl, ?_⟩
  exact request_success_classification .HTTP_GET "http://example.com/".data none
    {} initialState 0 tr204 r204 204 [] [] rfl rfl rfl

/-- Where the first `':'` of a list sits: either there is none (and `':'` is
not an element), or `findCharIdx` returns the position of the first one, with
`take`/`drop` around it described by `takeWhile`/`dropWhile`. -/
lemma colon_split : ∀ (l : List Char),
    (findCharIdx ':' l = none ∧ ':' ∉ l) ∨
    (∃ i, findCharIdx ':' l = some i ∧ ':' ∈ l ∧
      l.take i = l.takeWhile (fun c => c != ':') ∧
      l.drop (i + 1) = (l.dropWhile (fun c => c != ':')).tail)
  | [] => .inl ⟨rfl, by simp⟩
  | c :: l => by
      by_cases hc : c = ':'
      · subst hc
        refine .inr ⟨0, ?_, ?_, ?_, ?_⟩
        · simp [findCharIdx]
        · simp
        · simp [List.takeWhile_cons]
        · simp [List.dropWhile_cons]
      · rcases colon_split l with ⟨hf, hm⟩ | ⟨i, hf, hm, ht, hd⟩
        · refine .inl ⟨?_, ?_⟩
          · simp [findCharIdx, hc, hf]
          · simp [hm]
            exact fun hcontra => hc hcontra.symm
        · refine .inr ⟨i + 1, ?_, ?_, ?_, ?_⟩
          · simp [findCharIdx, hc, hf]
          · simp [hm]
          · simp [List.takeWhile_cons, hc, ht]
          · simpa [List.dropWhile_cons, hc] using hd

/-- C7 (counterexample): for `http://a:1:2/p` the host portion is `a:1:2`;
the claim predicts port 2 (suffix after the last `':'`) and host `a:1`, but
`ParseUrl` splits at the first `':'` and `std::stoi` reads only the leading
digits of `1:2`, giving port 1 and host `a`. -/
theorem parseurl_port_first_colon
    : ParseUrl "http://a:1:2/p".data
        = .ok (some ⟨"http".data, "a".data, "/p".data, 1⟩) ∧
      (1 : Int) ≠ 2 ∧ "a".data ≠ "a:1".data := by
  exact ⟨rfl, by decide, by decide⟩

/-- C7 (amended): when the host portion contains a `':'`, `ParseUrl` splits at
the FIRST `':'`: host is everything before it and the port is `std::stoi`
applied to the suffix after it (reading its leading digits, possibly
throwing); when the host portion has no `':'`, the port defaults to 443 for
`https` and 80 for every other scheme. -/
theorem parseurl_port_amended
    (url proto h0 path : List Char)
    (hsplit : splitSchemeHostPath url = some (proto, h0, path)) :
    (':' ∉ h0 →
      ParseUrl url = .ok (some ⟨proto, h0, path,
        if proto = "https".data then 443 else 80⟩)) ∧
    (':' ∈ h0 →
      ParseUrl url = (stoi ((h0.dropWhile (fun c => c != ':')).tail)).map
        (fun p => some ⟨proto, h0.takeWhile (fun c => c != ':'), path, p⟩)) := by
  rcases colon_split h0 with ⟨hf, hm⟩ | ⟨i, hf, hm, ht, hd⟩
  · refine ⟨fun _ => ?_, fun hmem => absurd hmem hm⟩
    unfold ParseUrl
    simp only [hsplit, hf]
  · refine ⟨fun hnot => absurd hm hnot, fun _ => ?_⟩
    unfold ParseUrl
    simp only [hsplit, hf, ht, hd]
    cases hs : stoi ((h0.dropWhile (fun c => c != ':')).tail) <;>
      simp [Except.map, hs]

/-- The URL used by C7's witness. -/
def urlW : List Char := "https://example.com:8443/x".data

/-- Witness for C7's amended theorem on `https://example.com:8443/x`. -/
theorem parseurl_port_amended_witness :
    splitSchemeHostPath urlW
      = some ("https".data, "example.com:8443".data, "/x".data) ∧
    (':' ∈ "example.com:8443".data) ∧
    ParseUrl urlW
      = (stoi (("example.com:8443".data.dropWhile (fun c => c != ':')).tail)).map
          (fun p => some ⟨"https".data,
            "example.com:8443".data.takeWhile (fun c => c != ':'), "/x".data, p⟩) ∧
    ParseUrl urlW = .ok (some ⟨"https".data, "example.com".data, "/x".data, 8443⟩) := by
  refine ⟨rfl, by decide, ?_, rfl⟩
  exact (parseurl_port_amended urlW "https".data "example.com:8443".data
    "/x".data rfl).2 (by decide)

/-- C9: the thread body spawned by `RequestAsync` invokes the callback exactly
once, with exactly the `NetworkResponse` produced by `Request` under the same
configuration except that `async_request` is cleared. -/
theorem requestAsync_callback_once {γ : Type}
    (method : Method) (url : List Char) (callback : NetworkResponse → γ)
    (payload : Option (List Char)) (config : RequestConfig)
    (st : NetState) (now : Nat) (tr : Transport) (r : RequestResult)
    (hreq : Request method url payload { config with async_request := false }
      st now tr = .ok r) :
    RequestAsync method url callback payload config st now tr
      = .ok ([callback r.response], r.state) ∧
    [callback r.response].length = 1 := by
  refine ⟨?_, rfl⟩
  unfold RequestAsync
  rw [hreq]

/-- The configuration used by C9's witness (async flag initially set). -/
def cfgAsync : RequestConfig := { async_request := true }

/-- The result of C9's witness inner request. -/
def rAsync : RequestResult :=
  RequestAfterParse ⟨"http".data, "example.com".data, "/".data, 80⟩
    { cfgAsync with async_request := false } initialState 0 okTransport

/-- Witness for C9: the callback records the status code; it is invoked once
with the inner synchronous result. -/
theorem requestAsync_callback_once_witness :
    Request .HTTP_GET "http://example.com/".data none
      { cfgAsync with async_request := false } initialState 0 okTransport
      = .ok rAsync ∧
    (RequestAsync .HTTP_GET "http://example.com/".data
        (fun resp => resp.status_code) none cfgAsync initialState 0 okTransport
      = .ok ([rAsync.response.status_code], rAsync.state) ∧
      [rAsync.response.status_code].length = 1) := by
  refine ⟨rfl, ?_⟩
  exact requestAsync_callback_once .HTTP_GET "http://example.com/".data
    (fun resp => resp.status_code) none cfgAsync initialState 0 okTransport rAsync rfl

/-! ### Helper lemmas about the rate limiter and admitted/rejected requests -/

lemma applyRateLimit_first (st : NetState) (now : Nat) (h : List Char) (N : Int)
    (hN : 0 < N) (hcount : (st.rateLimitMap h).requestCount = 0) :
    (ApplyRateLimit st now h N).1 = true ∧
    ((ApplyRateLimit st now h N).2).rateLimitMap h = ⟨1, now⟩ := by
  simp only [ApplyRateLimit]
  rw [if_neg (by omega), if_pos hcount]
  exact ⟨rfl, by simp⟩

lemma applyRateLimit_increment (st : NetState) (now t1 : Nat) (h : List Char)
    (N : Int) (c : Nat)
    (hmap : st.rateLimitMap h = ⟨c, t1⟩) (hc : 0 < c) (hcN : (c : Int) < N)
    (hwin : now - t1 < 60000) :
    (ApplyRateLimit st now h N).1 = true ∧
    ((ApplyRateLimit st now h N).2).rateLimitMap h = ⟨c + 1, t1⟩ := by
  simp only [ApplyRateLimit, hmap]
  rw [if_neg (by omega), if_neg (by omega), if_neg (by omega), if_neg (by omega)]
  exact ⟨rfl, by simp⟩

lemma applyRateLimit_reject (st : NetState) (now t1 : Nat) (h : List Char)
    (N : Int) (c : Nat)
    (hmap : st.rateLimitMap h = ⟨c, t1⟩) (hc : 0 < c) (hcN : N ≤ (c : Int))
    (hN : 0 < N) (hwin : now - t1 < 60000) :
    ApplyRateLimit st now h N = (false, st) := by
  simp only [ApplyRateLimit, hmap]
  rw [if_neg (by omega), if_neg (by omega), if_neg (by omega), if_pos (by omega)]

/-- An admitted request under active rate limiting proceeds to the attempt
phase on the state left by `ApplyRateLimit`. -/
lemma request_admitted_step
    (method : Method) (url : List Char) (payload : Option (List Char))
    (config : RequestConfig) (st : NetState) (now : Nat) (tr : Transport)
    (u : ParsedUrl)
    (hparse : ParseUrl url = .ok (some u))
    (hconn : tr.connectOk = true) (hopen : tr.openOk = true)
    (hrpos : 0 < config.rate_limit_per_minute)
    (hadm : (ApplyRateLimit st now u.host config.rate_limit_per_minute).1 = true) :
    Request method url payload config st now tr
      = .ok (AttemptPhase config
          (ApplyRateLimit st now u.host config.rate_limit_per_minute).2 tr) := by
  unfold Request
  simp only [hparse]
  rw [afterParse_of_admitted u config st now tr hconn hopen
      (by rw [if_pos hrpos]; exact hadm), if_pos hrpos]

/-- With rate limiting disabled, every request proceeds to the attempt phase
on the unchanged state. -/
lemma request_unlimited_step
    (method : Method) (url : List Char) (payload : Option (List Char))
    (config : RequestConfig) (st : NetState) (now : Nat) (tr : Transport)
    (u : ParsedUrl)
    (hparse : ParseUrl url = .ok (some u))
    (hconn : tr.connectOk = true) (hopen : tr.openOk = true)
    (hrneg : config.rate_limit_per_minute ≤ 0) :
    Request method url payload config st now tr
      = .ok (AttemptPhase config st tr) := by
  unfold Request
  simp only [hparse]
  rw [afterParse_of_admitted u config st now tr hconn hopen
      (by rw [if_neg (by omega)]), if_neg (by omega)]

/-- A rejected request returns the 429 response immediately. -/
lemma request_rejected_step
    (method : Method) (url : List Char) (payload : Option (List Char))
    (config : RequestConfig) (st st2 : NetState) (now : Nat) (tr : Transport)
    (u : ParsedUrl)
    (hparse : ParseUrl url = .ok (some u))
    (hrpos : 0 < config.rate_limit_per_minute)
    (hadm : ApplyRateLimit st now u.host config.rate_limit_per_minute = (false, st2)) :
    Request method url payload config st now tr
      = .ok { response := { success := false, error_message := rateLimitMsg u.host,
                            status_code := 429 },
              state := st2, attempts := 0, sentHeaders := [], phaseTimeouts := none,
              delays := [] } := by
  unfold Request
  simp only [hparse]
  simp only [RequestAfterParse]
  rw [if_pos hrpos, hadm]
  simp

/-- Starting from `k ≥ 1` admissions recorded in the current window, a run of
requests whose clock readings stay inside that window and whose total count
keeps the tally within the limit is admitted throughout, incrementing the
tally once per request. -/
lemma requestSeq_admits
    (method : Method) (url : List Char) (payload : Option (List Char))
    (config : RequestConfig) (tr : Transport) (u : ParsedUrl) (N : Nat) (t1 : Nat)
    (hparse : ParseUrl url = .ok (some u))
    (hconn : tr.connectOk = true) (hopen : tr.openOk = true)
    (hrate : config.rate_limit_per_minute = (N : Int)) (hN : 0 < N) :
    ∀ (ts : List Nat) (st : NetState) (k : Nat),
      st.rateLimitMap u.host = ⟨k, t1⟩ → 0 < k → k + ts.length ≤ N →
      (∀ t ∈ ts, t - t1 < 60000) →
      ∃ stf rs, RequestSeq method url payload config tr ts st = .ok (stf, rs) ∧
        stf.rateLimitMap u.host = ⟨k + ts.length, t1⟩ ∧
        rs.length = ts.length ∧ (∀ r ∈ rs, r.attempts = 1) := by
  intro ts
  induction ts with
  | nil =>
      intro st k hmap _ _ _
      exact ⟨st, [], rfl, by simpa using hmap, rfl, by simp⟩
  | cons t ts ih =>
      intro st k hmap hk hle htimes
      have hle' : k + ts.length + 1 ≤ N := by simpa [Nat.add_assoc, Nat.add_comm] using hle
      have hwin : t - t1 < 60000 := htimes t (by simp)
      have hrpos : 0 < config.rate_limit_per_minute := by
        rw [hrate]; exact_mod_cast hN
      have hcN : (k : Int) < config.rate_limit_per_minute := by
        rw [hrate]; exact_mod_cast (by omega : k < N)
      have hinc := applyRateLimit_increment st t t1 u.host
        config.rate_limit_per_minute k hmap hk hcN hwin
      have hstep := request_admitted_step method url payload config st t tr u
        hparse hconn hopen hrpos hinc.1
      obtain ⟨stf, rs, hseq, hmapf, hlen, hatts⟩ :=
        ih (AttemptPhase config
            (ApplyRateLimit st t u.host config.rate_limit_per_minute).2 tr).state
          (k + 1)
          (by rw [attemptPhase_state]; exact hinc.2) (by omega) (by omega)
          (fun t2 ht2 => htimes t2 (by simp [ht2]))
      refine ⟨stf, AttemptPhase config
          (ApplyRateLimit st t u.host config.rate_limit_per_minute).2 tr :: rs,
        ?_, ?_, ?_, ?_⟩
      · simp only [RequestSeq, hstep, hseq]
      · rw [hmapf]
        congr 1
        simp only [List.length_cons]
        omega
      · simp [hlen]
      · intro r hr
        rcases List.mem_cons.mp hr with h | h
        · rw [h]
          exact attemptPhase_attempts _ _ _
        · exact hatts r h

/-- C2: reject-mode rate limiting.  With `rate_limit_per_minute = N > 0` and a
fresh window for the URL's host, a run of `N` requests inside one 60-second
window is admitted (one transport attempt each); the next request inside that
window is rejected immediately with status 429, `success = false`, the
rate-limit message, and no transport attempt.  With
`rate_limit_per_minute ≤ 0`, every request is admitted. -/
theorem request_rate_limit_reject_mode :
    (∀ (method : Method) (url : List Char) (payload : Option (List Char))
       (config : RequestConfig) (tr : Transport) (u : ParsedUrl) (N : Nat)
       (st : NetState) (t1 tN : Nat) (ts : List Nat),
      ParseUrl url = .ok (some u) →
      tr.connectOk = true → tr.openOk = true →
      config.rate_limit_per_minute = (N : Int) → 0 < N →
      (st.rateLimitMap u.host).requestCount = 0 →
      ts.length + 1 = N →
      (∀ t ∈ ts, t - t1 < 60000) →
      tN - t1 < 60000 →
      ∃ stf rs, RequestSeq method url payload config tr (t1 :: ts) st
          = .ok (stf, rs) ∧
        rs.length = N ∧ (∀ r ∈ rs, r.attempts = 1) ∧
        Request method url payload config stf tN tr
          = .ok { response := { success := false,
                                error_message := rateLimitMsg u.host,
                                status_code := 429 },
                  state := stf, attempts := 0, sentHeaders := [],
                  phaseTimeouts := none, delays := [] }) ∧
    (∀ (method : Method) (url : List Char) (payload : Option (List Char))
       (config : RequestConfig) (tr : Transport) (u : ParsedUrl)
       (st : NetState) (now : Nat),
      ParseUrl url = .ok (some u) →
      tr.connectOk = true → tr.openOk = true →
      config.rate_limit_per_minute ≤ 0 →
      Request method url payload config st now tr
        = .ok (AttemptPhase config st tr) ∧
      (AttemptPhase config st tr).attempts = 1) := by
  constructor
  · intro method url payload config tr u N st t1 tN ts hparse hconn hopen hrate
      hN hfresh hlen htimes hwinN
    have hrpos : 0 < config.rate_limit_per_minute := by
      rw [hrate]; exact_mod_cast hN
    have hfirst := applyRateLimit_first st t1 u.host config.rate_limit_per_minute
      hrpos hfresh
    have hstep1 := request_admitted_step method url payload config st t1 tr u
      hparse hconn hopen hrpos hfirst.1
    obtain ⟨stf, rs, hseq, hmapf, hlenrs, hatts⟩ :=
      requestSeq_admits method url payload config tr u N t1 hparse hconn hopen
        hrate hN ts
        (AttemptPhase config
          (ApplyRateLimit st t1 u.host config.rate_limit_per_minute).2 tr).state 1
        (by rw [attemptPhase_state]; exact hfirst.2) (by omega) (by omega) htimes
    have hrej := applyRateLimit_reject stf tN t1 u.host
      config.rate_limit_per_minute (1 + ts.length) hmapf (by omega)
      (by rw [hrate]; exact_mod_cast (by omega : N ≤ 1 + ts.length)) hrpos hwinN
    refine ⟨stf, AttemptPhase config
        (ApplyRateLimit st t1 u.host config.rate_limit_per_minute).2 tr :: rs,
      ?_, ?_, ?_, ?_⟩
    · simp only [RequestSeq, hstep1, hseq]
    · simp [hlenrs]
      omega
    · intro r hr
      rcases List.mem_cons.mp hr with h | h
      · rw [h]
        exact attemptPhase_attempts _ _ _
      · exact hatts r h
    · exact request_rejected_step method url payload config stf stf tN tr u
        hparse hrpos hrej
  · intro method url payload config tr u st now hparse hconn hopen hrneg
    exact ⟨request_unlimited_step method url payload config st now tr u
      hparse hconn hopen hrneg, attemptPhase_attempts _ _ _⟩

/-- The configuration and URL of C2's witness: two requests per minute to
host `h`. -/
def rlCfg : RequestConfig := { rate_limit_per_minute := 2 }

/-- The URL of C2's witness. -/
def urlH : List Char := "http://h/".data

/-- The parse result of C2's witness URL. -/
def uH : ParsedUrl := ⟨"http".data, "h".data, "/".data, 80⟩

/-- Witness for C2: with limit 2, two requests at 0 ms and 10 ms are admitted;
a third at 20 ms is rejected with 429 and no transport attempt. -/
theorem request_rate_limit_reject_mode_witness :
    (ParseUrl urlH = .ok (some uH) ∧
     rlCfg.rate_limit_per_minute = ((2 : Nat) : Int) ∧
     (initialState.rateLimitMap uH.host).requestCount = 0 ∧
     [(10 : Nat)].length + 1 = 2 ∧
     (∀ t ∈ [(10 : Nat)], t - 0 < 60000) ∧ 20 - 0 < 60000) ∧
    (∃ stf rs, RequestSeq .HTTP_GET urlH none rlCfg okTransport [0, 10]
        initialState = .ok (stf, rs) ∧
      rs.length = 2 ∧ (∀ r ∈ rs, r.attempts = 1) ∧
      Request .HTTP_GET urlH none rlCfg stf 20 okTransport
        = .ok { response := { success := false,
                              error_message := rateLimitMsg uH.host,
                              status_code := 429 },
                state := stf, attempts := 0, sentHeaders := [],
                phaseTimeouts := none, delays := [] }) := by
  refine ⟨⟨rfl, rfl, rfl, rfl, by decide, by decide⟩, ?_⟩
  exact request_rate_limit_reject_mode.1 .HTTP_GET urlH none rlCfg okTransport
    uH 2 initialState 0 20 [10] rfl rfl rfl rfl (by decide) rfl rfl
    (by decide) (by decide)

end NetworkClient
